import Mathlib

/-!
Verification of the two scripts of the repository
Reinforcement-Learning-Function-Approximation (src/LQR/1dim_PPO.py and
src/LQR/1dim_SAC.py) against their natural-language specification.

The numeric parts of the scripts (discounted-reward accumulation, the PPO
surrogate loss, the LQR stage cost and state update, the Memory record) are
embedded as executable functions over the rationals; tensors of shape (1,1)
become single rationals or 1x1 matrices.  The script-level structure (which
library calls occur, in which order, inside which loops, with no try/except
anywhere) is embedded as a small statement AST transcribed statement by
statement from the Python sources, with generic predicates over that AST.
-/

namespace PPOScript

/-- Element-wise torch.sign on a scalar: 1 for positive, -1 for negative,
0 for zero (used at src/LQR/1dim_PPO.py line 199). -/
def sign (x : ℚ) : ℚ := if 0 < x then 1 else if x < 0 then -1 else 0

/-- Per-sample first surrogate term of PPO.update_actor
(src/LQR/1dim_PPO.py line 198): surr1 = ratios * advantages. -/
def update_actor_surr1 (ratio adv : ℚ) : ℚ := ratio * adv

/-- Per-sample second surrogate term of PPO.update_actor
(src/LQR/1dim_PPO.py line 199):
surr2 = (torch.ones_like(advantages) - eps_clip * torch.sign(advantages)) * advantages. -/
def update_actor_surr2 (eps_clip adv : ℚ) : ℚ := (1 - eps_clip * sign adv) * adv

/-- Per-sample actor loss of PPO.update_actor (src/LQR/1dim_PPO.py line 200):
actor_loss = torch.min(surr1, surr2), element-wise over the batch. -/
def update_actor_loss (eps_clip ratio adv : ℚ) : ℚ :=
  min (update_actor_surr1 ratio adv) (update_actor_surr2 eps_clip adv)

/-- Batch version of the per-sample actor loss: lines 198-200 act
element-wise on the ratio and advantage vectors of one stored batch,
identically in each of the K_epochs iterations of the loop at line 189. -/
def update_actor_losses (eps_clip : ℚ) (ratios advantages : List ℚ) : List ℚ :=
  List.zipWith (fun r a => update_actor_loss eps_clip r a) ratios advantages

/-- torch.clamp on a scalar. -/
def clampQ (x lo hi : ℚ) : ℚ := max lo (min x hi)

/-- Modelled from the spec: the standard textbook PPO clipped-surrogate
per-sample loss min(ratio * adv, clip(ratio, 1 - eps, 1 + eps) * adv),
which the spec asserts the actor update computes. -/
def specClippedSurrogate (eps_clip ratio adv : ℚ) : ℚ :=
  min (ratio * adv) (clampQ ratio (1 - eps_clip) (1 + eps_clip) * adv)

/-- Replay memory of the PPO script (src/LQR/1dim_PPO.py lines 65-78).
The five attributes set by Memory.__init__ are its only attributes; tensor
entries are modelled as rationals. -/
structure Memory where
  actions : List ℚ
  states : List ℚ
  logprobs : List ℚ
  rewards : List ℚ
  is_terminals : List Bool

/-- Memory.clear_memory (src/LQR/1dim_PPO.py lines 73-78): del l[:] empties
each of the five lists in place; no other attribute is touched. -/
def Memory.clear_memory (m : Memory) : Memory :=
  { m with actions := [], states := [], logprobs := [],
           rewards := [], is_terminals := [] }

/-- Loop body of the Monte Carlo reward accumulation in PPO.update_actor
(src/LQR/1dim_PPO.py lines 172-177): iterate over
zip(reversed(rewards), reversed(is_terminals)); on a terminal flag reset the
running discounted reward to 0, then set it to reward + gamma * running, and
insert it at the front of the output list. -/
def update_actor_rewards_loop (gamma : ℚ) :
    List (ℚ × Bool) → ℚ → List ℚ → List ℚ
  | [], _, acc => acc
  | (r, t) :: rest, d, acc =>
    let d1 := r + gamma * (if t then 0 else d)
    update_actor_rewards_loop gamma rest d1 (d1 :: acc)

/-- Discounted-reward sequence computed at the start of PPO.update_actor
(src/LQR/1dim_PPO.py lines 170-177), before the normalization at line 181. -/
def update_actor_rewards (gamma : ℚ) (rewards : List ℚ)
    (is_terminals : List Bool) : List ℚ :=
  update_actor_rewards_loop gamma
    (List.zip rewards.reverse is_terminals.reverse) 0 []

/-- Loop body of the Monte Carlo reward accumulation in PPO.update_critic
(src/LQR/1dim_PPO.py lines 214-219), transcribed separately from the actor's
copy of the same loop. -/
def update_critic_rewards_loop (gamma : ℚ) :
    List (ℚ × Bool) → ℚ → List ℚ → List ℚ
  | [], _, acc => acc
  | (r, t) :: rest, d, acc =>
    let d1 := r + gamma * (if t then 0 else d)
    update_critic_rewards_loop gamma rest d1 (d1 :: acc)

/-- Discounted-reward sequence computed at the start of PPO.update_critic
(src/LQR/1dim_PPO.py lines 213-219), before the normalization at line 222. -/
def update_critic_rewards (gamma : ℚ) (rewards : List ℚ)
    (is_terminals : List Bool) : List ℚ :=
  update_critic_rewards_loop gamma
    (List.zip rewards.reverse is_terminals.reverse) 0 []

end PPOScript

lemma PPOScript.actor_critic_loop_eq (gamma : ℚ) :
    ∀ (l : List (ℚ × Bool)) (d : ℚ) (acc : List ℚ),
      update_actor_rewards_loop gamma l d acc =
        update_critic_rewards_loop gamma l d acc := by
  intro l
  induction l with
  | nil => intro d acc; rfl
  | cons p rest ih =>
    intro d acc
    cases p with
    | mk r t =>
      simp only [update_actor_rewards_loop, update_critic_rewards_loop]
      exact ih _ _

/-- C1 counterexample: with eps_clip = 1/5, ratio = 1 and advantage = 1
(the ratio every sample has in the first of the K_epochs iterations, since
there policy and policy_old coincide), the per-sample loss computed by
PPO.update_actor is min(1, (1 - 1/5)) = 4/5, while the textbook clipped
surrogate claimed by the spec is min(1, clip(1, 4/5, 6/5)) = 1. -/
theorem C1_clipped_surrogate_counterexample :
    PPOScript.update_actor_loss (1/5) 1 1 ≠
      PPOScript.specClippedSurrogate (1/5) 1 1 := by
  norm_num [PPOScript.update_actor_loss, PPOScript.update_actor_surr1,
    PPOScript.update_actor_surr2, PPOScript.sign,
    PPOScript.specClippedSurrogate, PPOScript.clampQ]

/-- C1 amended: in PPO.update_actor the per-sample surrogate loss is
min(ratio * adv, (1 - eps_clip * sign(adv)) * adv) — the ratio itself is
never clipped; for a positive advantage the second term is (1 - eps_clip) * adv
and for a negative one (1 + eps_clip) * adv, rather than the textbook
clip(ratio, 1 - eps_clip, 1 + eps_clip) * adv. -/
theorem C1_actor_surrogate_amended (eps_clip ratio adv : ℚ) :
    PPOScript.update_actor_loss eps_clip ratio adv =
      if 0 < adv then min (ratio * adv) ((1 - eps_clip) * adv)
      else if adv < 0 then min (ratio * adv) ((1 + eps_clip) * adv)
      else 0 := by
  unfold PPOScript.update_actor_loss PPOScript.update_actor_surr1
    PPOScript.update_actor_surr2 PPOScript.sign
  split_ifs with h1 h2
  · rw [mul_one]
  · have : (1 - eps_clip * (-1)) = 1 + eps_clip := by ring
    rw [this]
  · have ha : adv = 0 := le_antisymm (not_lt.mp h1) (not_lt.mp h2)
    subst ha
    simp

/-- C8: for every memory whose rewards and is_terminals lists have equal
length, the discounted-reward sequence computed at the start of
PPO.update_actor equals, element-wise, the one computed at the start of
PPO.update_critic, both taken before their respective normalizations. -/
theorem C8_actor_critic_rewards_agree (gamma : ℚ) (rewards : List ℚ)
    (is_terminals : List Bool)
    (_hlen : rewards.length = is_terminals.length) :
    PPOScript.update_actor_rewards gamma rewards is_terminals =
      PPOScript.update_critic_rewards gamma rewards is_terminals := by
  unfold PPOScript.update_actor_rewards PPOScript.update_critic_rewards
  exact PPOScript.actor_critic_loop_eq gamma _ 0 []

/-- C8 witness: the two discounted-reward computations agree on the concrete
memory with rewards [3, 1, 2] and is_terminals [false, true, false]. -/
theorem C8_actor_critic_rewards_agree_witness :
    ([(3 : ℚ), 1, 2].length = [false, true, false].length) ∧
      PPOScript.update_actor_rewards (99/100) [3, 1, 2] [false, true, false] =
        PPOScript.update_critic_rewards (99/100) [3, 1, 2] [false, true, false] :=
  ⟨by decide,
    C8_actor_critic_rewards_agree (99/100) [3, 1, 2] [false, true, false]
      (by decide)⟩

namespace PPOScript

/-- Dynamics matrix A = np.array(1).reshape(1,1) of the PPO script
(src/LQR/1dim_PPO.py line 239). -/
def A : Matrix (Fin 1) (Fin 1) ℚ := !![1]

/-- Input matrix B = np.array(1).reshape(1,1) (src/LQR/1dim_PPO.py line 240). -/
def B : Matrix (Fin 1) (Fin 1) ℚ := !![1]

/-- State-cost matrix Q = np.array(1).reshape(1,1)
(src/LQR/1dim_PPO.py line 241). -/
def Q : Matrix (Fin 1) (Fin 1) ℚ := !![1]

/-- Action-cost matrix R = np.array(1).reshape(1,1)
(src/LQR/1dim_PPO.py line 242). -/
def R : Matrix (Fin 1) (Fin 1) ℚ := !![1]

/-- state_dim = 1 (src/LQR/1dim_PPO.py line 244). -/
def state_dim : ℕ := 1

/-- action_dim = 1 (src/LQR/1dim_PPO.py line 245). -/
def action_dim : ℕ := 1

/-- Stage reward of one timestep of the PPO training loop
(src/LQR/1dim_PPO.py line 293):
reward = np.matmul(state, np.matmul(Q, state)) + np.matmul(action, np.matmul(R, action)). -/
def stepReward (state action : Matrix (Fin 1) (Fin 1) ℚ) :
    Matrix (Fin 1) (Fin 1) ℚ :=
  state * (Q * state) + action * (R * action)

/-- State update of one timestep of the PPO training loop
(src/LQR/1dim_PPO.py line 294): state = np.matmul(A, state) + np.matmul(B, action). -/
def stepState (state action : Matrix (Fin 1) (Fin 1) ℚ) :
    Matrix (Fin 1) (Fin 1) ℚ :=
  A * state + B * action

end PPOScript

namespace SACScript

/-- Dynamics matrix A = np.array(1).reshape(1,1) of the SAC script
(src/LQR/1dim_SAC.py line 199). -/
def A : Matrix (Fin 1) (Fin 1) ℚ := !![1]

/-- Input matrix B = np.array(1).reshape(1,1) (src/LQR/1dim_SAC.py line 200). -/
def B : Matrix (Fin 1) (Fin 1) ℚ := !![1]

/-- State-cost matrix Q = np.array(1).reshape(1,1)
(src/LQR/1dim_SAC.py line 201). -/
def Q : Matrix (Fin 1) (Fin 1) ℚ := !![1]

/-- Action-cost matrix R = np.array(1).reshape(1,1)
(src/LQR/1dim_SAC.py line 202). -/
def R : Matrix (Fin 1) (Fin 1) ℚ := !![1]

/-- state_dim = 1 (src/LQR/1dim_SAC.py line 204). -/
def state_dim : ℕ := 1

/-- action_dim = 1 (src/LQR/1dim_SAC.py line 205). -/
def action_dim : ℕ := 1

/-- Stage cost of one timestep of the SAC training loop
(src/LQR/1dim_SAC.py line 243): cost = state @ Q @ state + action @ R @ action
(the @ operator associating to the left). -/
def stepCost (state action : Matrix (Fin 1) (Fin 1) ℚ) :
    Matrix (Fin 1) (Fin 1) ℚ :=
  state * Q * state + action * R * action

/-- State update of one timestep of the SAC training loop
(src/LQR/1dim_SAC.py line 244): state = A @ state + B @ action. -/
def stepState (state action : Matrix (Fin 1) (Fin 1) ℚ) :
    Matrix (Fin 1) (Fin 1) ℚ :=
  A * state + B * action

/-- Replay memory of the SAC script (src/LQR/1dim_SAC.py lines 88-101).
The five attributes set by Memory.__init__ are its only attributes; tensor
entries are modelled as rationals. -/
structure Memory where
  actions : List ℚ
  states : List ℚ
  logprobs : List ℚ
  costs : List ℚ
  is_terminals : List Bool

/-- Memory.clear_memory (src/LQR/1dim_SAC.py lines 96-101): del l[:] empties
each of the five lists in place; no other attribute is touched. -/
def Memory.clear_memory (m : Memory) : Memory :=
  { m with actions := [], states := [], logprobs := [],
           costs := [], is_terminals := [] }

/-- Loop body of the Monte Carlo cost accumulation in SAC.update
(src/LQR/1dim_SAC.py lines 164-169): iterate over
zip(reversed(costs), reversed(is_terminals)); on a terminal flag reset the
running discounted cost to 0, then set it to cost + gamma * running, and
insert it at the front of the output list. -/
def update_costs_loop (gamma : ℚ) :
    List (ℚ × Bool) → ℚ → List ℚ → List ℚ
  | [], _, acc => acc
  | (c, t) :: rest, d, acc =>
    let d1 := c + gamma * (if t then 0 else d)
    update_costs_loop gamma rest d1 (d1 :: acc)

/-- Discounted-cost sequence computed at the start of SAC.update
(src/LQR/1dim_SAC.py lines 162-169). -/
def update_costs (gamma : ℚ) (costs : List ℚ)
    (is_terminals : List Bool) : List ℚ :=
  update_costs_loop gamma
    (List.zip costs.reverse is_terminals.reverse) 0 []

/-- Inner episode loop of the SAC training loop restricted to its effect on
memory.is_terminals (src/LQR/1dim_SAC.py lines 239-251): each of the
max_timesteps iterations appends the current done flag, then breaks if done
is true.  The loop body contains no assignment to done, so the flag is
threaded through unchanged. -/
def episode_loop : ℕ → Bool → List Bool
  | 0, _ => []
  | Nat.succ t, done => done :: (if done then [] else episode_loop t done)

/-- Sequence of flags appended to memory.is_terminals during one episode of
the SAC training loop: done is initialized to False at line 238 and the loop
runs with it. -/
def episode_terminals (T : ℕ) : List Bool := episode_loop T false

/-- Discounted-cost recurrence with no terminal reset: each output entry is
cost + gamma * (next output entry), with continuation value d after the last
entry.  This is what the loop of SAC.update computes when no element of
is_terminals is true. -/
def discounted_no_reset (gamma d : ℚ) : List ℚ → List ℚ
  | [] => []
  | c :: rest =>
    (c + gamma * ((discounted_no_reset gamma d rest).headD d)) ::
      discounted_no_reset gamma d rest

end SACScript

lemma SACScript.episode_loop_false : ∀ T : ℕ,
    SACScript.episode_loop T false = List.replicate T false := by
  intro T
  induction T with
  | zero => rfl
  | succ t ih => simp [SACScript.episode_loop, List.replicate_succ, ih]

lemma SACScript.headD_append_singleton (X : List ℚ) (y d : ℚ) :
    (X ++ [y]).headD d = X.headD y := by
  cases X <;> rfl

lemma SACScript.discounted_no_reset_append (gamma d a : ℚ) (as : List ℚ) :
    SACScript.discounted_no_reset gamma d (as ++ [a]) =
      SACScript.discounted_no_reset gamma (a + gamma * d) as ++ [a + gamma * d] := by
  induction as with
  | nil => simp [SACScript.discounted_no_reset]
  | cons c rest ih =>
    simp only [List.cons_append, SACScript.discounted_no_reset, List.append_eq]
    rw [ih, SACScript.headD_append_singleton]

lemma SACScript.zip_replicate_false (l : List ℚ) :
    List.zip l (List.replicate l.length false) = l.map fun c => (c, false) := by
  induction l with
  | nil => rfl
  | cons x xs ih => simp [List.replicate_succ, ih]

lemma SACScript.update_costs_loop_false (gamma : ℚ) (cs : List ℚ) :
    ∀ (d : ℚ) (acc : List ℚ),
      SACScript.update_costs_loop gamma (cs.reverse.map fun c => (c, false)) d acc =
        SACScript.discounted_no_reset gamma d cs ++ acc := by
  induction cs using List.reverseRecOn with
  | nil => intro d acc; rfl
  | append_singleton as a ih =>
    intro d acc
    rw [List.reverse_append]
    simp only [List.reverse_singleton, List.singleton_append, List.map_cons]
    simp only [SACScript.update_costs_loop]
    rw [if_neg (by simp)]
    rw [ih, SACScript.discounted_no_reset_append]
    simp [List.append_assoc]

/-- C9: in the SAC training loop the done flag starts as False and the
episode body contains no assignment to it, so the flags appended to
memory.is_terminals in an episode of T timesteps are exactly T copies of
False; consequently the discounted-cost loop of SAC.update computes, on such
a batch, the recurrence with no reset to zero. -/
theorem C9_sac_terminals_all_false :
    (∀ T : ℕ, SACScript.episode_terminals T = List.replicate T false) ∧
    (∀ (gamma : ℚ) (costs : List ℚ),
      SACScript.update_costs gamma costs
          (SACScript.episode_terminals costs.length) =
        SACScript.discounted_no_reset gamma 0 costs) := by
  constructor
  · intro T
    exact SACScript.episode_loop_false T
  · intro gamma costs
    unfold SACScript.update_costs SACScript.episode_terminals
    rw [SACScript.episode_loop_false]
    rw [show (List.replicate costs.length false).reverse =
        List.replicate costs.length false by
      induction costs.length with
      | zero => rfl
      | succ n ih =>
        simp only [List.replicate_succ, List.reverse_cons, ih]
        rw [← List.replicate_succ', List.replicate_succ]]
    rw [show costs.length = costs.reverse.length from
      (List.length_reverse costs).symm]
    rw [SACScript.zip_replicate_false]
    rw [SACScript.update_costs_loop_false]
    simp

/-- C10: calling clear_memory on any Memory object of either script leaves
all five of its lists (actions, states, logprobs, rewards or costs,
is_terminals) empty, and the object has no other attribute to change. -/
theorem C10_clear_memory :
    (∀ m : PPOScript.Memory,
      m.clear_memory = PPOScript.Memory.mk [] [] [] [] []) ∧
    (∀ m : SACScript.Memory,
      m.clear_memory = SACScript.Memory.mk [] [] [] [] []) :=
  ⟨fun _ => rfl, fun _ => rfl⟩

lemma transpose_fin_one (M : Matrix (Fin 1) (Fin 1) ℚ) : M.transpose = M := by
  ext i j
  fin_cases i
  fin_cases j
  rfl

/-- C3: in both scripts state_dim = 1 and action_dim = 1, the matrices
A, B, Q, R are the 1x1 matrices of the hyperparameter block, the stage cost
of every timestep is the quadratic form x^T Q x + u^T R u (for 1x1 matrices
the transpose is the identity, so the forms written in the scripts agree
with it), and the next state is the linear update A x + B u. -/
theorem C3_one_dim_lqr :
    (PPOScript.state_dim = 1 ∧ PPOScript.action_dim = 1 ∧
      SACScript.state_dim = 1 ∧ SACScript.action_dim = 1) ∧
    (∀ x u : Matrix (Fin 1) (Fin 1) ℚ,
      PPOScript.stepReward x u =
          x.transpose * PPOScript.Q * x + u.transpose * PPOScript.R * u ∧
        PPOScript.stepState x u = PPOScript.A * x + PPOScript.B * u) ∧
    (∀ x u : Matrix (Fin 1) (Fin 1) ℚ,
      SACScript.stepCost x u =
          x.transpose * SACScript.Q * x + u.transpose * SACScript.R * u ∧
        SACScript.stepState x u = SACScript.A * x + SACScript.B * u) := by
  refine ⟨⟨rfl, rfl, rfl, rfl⟩, ?_, ?_⟩
  · intro x u
    refine ⟨?_, rfl⟩
    unfold PPOScript.stepReward
    rw [transpose_fin_one, transpose_fin_one, mul_assoc, mul_assoc]
  · intro x u
    refine ⟨?_, rfl⟩
    unfold SACScript.stepCost
    rw [transpose_fin_one, transpose_fin_one]

namespace Script

/-- Statement shape of the Python scripts, transcribed statement by
statement from the sources.  Each constructor carries the list of dotted
library, method and helper names the statement references (its refs); a
plain assignment of a literal or arithmetic on local variables has no refs.
forS is a for loop (refs of its header, then its body), ifS a conditional
(refs of its condition, then both branches), withS a with block, and tryS a
try/except statement (body, then handlers).  Import statements, which only
bind module names, and comments are not statements of this AST. -/
inductive Stmt where
  | simple : List String → Stmt
  | forS : List String → List Stmt → Stmt
  | ifS : List String → List Stmt → List Stmt → Stmt
  | withS : List String → List Stmt → Stmt
  | tryS : List Stmt → List Stmt → Stmt

mutual

/-- Whether a statement contains a try/except construct, at any depth. -/
def stmtHasTry : Stmt → Bool
  | .simple _ => false
  | .forS _ body => stmtsHaveTry body
  | .ifS _ thn els => stmtsHaveTry thn || stmtsHaveTry els
  | .withS _ body => stmtsHaveTry body
  | .tryS _ _ => true

/-- Whether any statement of a list contains a try/except construct. -/
def stmtsHaveTry : List Stmt → Bool
  | [] => false
  | s :: rest => stmtHasTry s || stmtsHaveTry rest

end

mutual

/-- All names referenced by a statement, in source order. -/
def stmtRefs : Stmt → List String
  | .simple rs => rs
  | .forS rs body => rs ++ stmtsRefs body
  | .ifS rs thn els => rs ++ stmtsRefs thn ++ stmtsRefs els
  | .withS rs body => rs ++ stmtsRefs body
  | .tryS body handlers => stmtsRefs body ++ stmtsRefs handlers

/-- All names referenced by a list of statements, in source order. -/
def stmtsRefs : List Stmt → List String
  | [] => []
  | s :: rest => stmtRefs s ++ stmtsRefs rest

end

/-- Whether a referenced name reads the command line or other external
invocation input (sys.argv, argparse, environment, stdin). -/
def readsCLI (c : String) : Bool :=
  c == "sys.argv" || c == "argparse.ArgumentParser" ||
    c == "os.environ" || c == "os.getenv" || c == "input"

/-- Whether a referenced name writes a file or other persistent state. -/
def writesPersistent (c : String) : Bool :=
  c == "torch.save" || c == "open" || c == "np.save" || c == "np.savetxt" ||
    c == "plt.savefig" || c == "pickle.dump" || c == "json.dump" ||
    c == "shutil.copy" || c == "os.makedirs"

/-- Whether a referenced name is a model-checkpoint write through the tensor
library's own serialization. -/
def isCheckpointSave (c : String) : Bool := c == "torch.save"

/-- Whether a referenced name creates a thread or process of its own. -/
def spawnsConcurrency (c : String) : Bool :=
  c == "threading.Thread" || c == "multiprocessing.Process" ||
    c == "multiprocessing.Pool" || c == "concurrent.futures.ThreadPoolExecutor" ||
    c == "concurrent.futures.ProcessPoolExecutor" || c == "os.fork" ||
    c == "subprocess.Popen" || c == "subprocess.run" || c == "asyncio.run"

/-- Observable trace of one referenced name: a name that reads the command
line exposes the invocation arguments, any other name contributes only
itself. -/
def refTrace (argv : List String) (c : String) : List String :=
  if readsCLI c then c :: argv else [c]

/-- Observable trace of a list of referenced names. -/
def traceOfRefs (argv : List String) : List String → List String
  | [] => []
  | c :: rest => refTrace argv c ++ traceOfRefs argv rest

/-- Observable trace of a statement list under invocation arguments argv:
the library touches it makes, in source order, where a name that reads the
command line also exposes argv. -/
def stmtsTrace (argv : List String) (l : List Stmt) : List String :=
  traceOfRefs argv (stmtsRefs l)

/-- Evaluation of the refs of one statement under an oracle telling which
library names raise: the first raising name aborts with that name as the
error. -/
def firstFailing (raises : String → Bool) : List String → Except String Unit
  | [] => .ok ()
  | c :: rest => if raises c then .error c else firstFailing raises rest

/-- Whether an Except result is a success. -/
def isOkE : Except String Unit → Bool
  | .ok _ => true
  | .error _ => false

mutual

/-- Sequential execution of one statement under an oracle for raising
library names and an oracle choosing conditional branches from the
condition's refs.  Errors propagate outward except through tryS, whose
handlers catch them; every other construct completes its parts in order,
each finishing before the next begins. -/
def runStmt (raises : String → Bool) (branch : List String → Bool) :
    Stmt → Except String Unit
  | .simple rs => firstFailing raises rs
  | .forS rs body =>
    match firstFailing raises rs with
    | .error e => .error e
    | .ok _ => runStmts raises branch body
  | .ifS rs thn els =>
    match firstFailing raises rs with
    | .error e => .error e
    | .ok _ => if branch rs then runStmts raises branch thn
               else runStmts raises branch els
  | .withS rs body =>
    match firstFailing raises rs with
    | .error e => .error e
    | .ok _ => runStmts raises branch body
  | .tryS body handlers =>
    match runStmts raises branch body with
    | .error _ => runStmts raises branch handlers
    | .ok _ => .ok ()

/-- Sequential execution of a statement list: each statement completes
before the next begins, and an error stops the run. -/
def runStmts (raises : String → Bool) (branch : List String → Bool) :
    List Stmt → Except String Unit
  | [] => .ok ()
  | s :: rest =>
    match runStmt raises branch s with
    | .error e => .error e
    | .ok _ => runStmts raises branch rest

end

mutual

/-- Names whose evaluation the runner attempts when executing a statement,
under a branch oracle. -/
def executedRefs (branch : List String → Bool) : Stmt → List String
  | .simple rs => rs
  | .forS rs body => rs ++ executedRefsList branch body
  | .ifS rs thn els =>
    rs ++ (if branch rs then executedRefsList branch thn
           else executedRefsList branch els)
  | .withS rs body => rs ++ executedRefsList branch body
  | .tryS body handlers =>
    executedRefsList branch body ++ executedRefsList branch handlers

/-- Names whose evaluation the runner attempts on a statement list. -/
def executedRefsList (branch : List String → Bool) : List Stmt → List String
  | [] => []
  | s :: rest => executedRefs branch s ++ executedRefsList branch rest

end

end Script

lemma Script.firstFailing_isOkE (raises : String → Bool) :
    ∀ rs : List String,
      Script.isOkE (Script.firstFailing raises rs) =
        (rs.all fun c => !raises c) := by
  intro rs
  induction rs with
  | nil => rfl
  | cons c rest ih =>
    simp only [Script.firstFailing, List.all_cons]
    by_cases h : raises c
    · simp [h, Script.isOkE]
    · simp [h, ih]

mutual

theorem Script.runStmt_isOkE (raises : String → Bool)
    (branch : List String → Bool) :
    ∀ s : Script.Stmt, Script.stmtHasTry s = false →
      Script.isOkE (Script.runStmt raises branch s) =
        ((Script.executedRefs branch s).all fun c => !raises c)
  | .simple rs, _h => by
    simp only [Script.runStmt, Script.executedRefs]
    exact Script.firstFailing_isOkE raises rs
  | .forS rs body, h => by
    have hb : Script.stmtsHaveTry body = false := by
      simpa [Script.stmtHasTry] using h
    simp only [Script.runStmt, Script.executedRefs, List.all_append]
    cases hf : Script.firstFailing raises rs with
    | error e =>
      have hrs : (rs.all fun c => !raises c) = false := by
        rw [← Script.firstFailing_isOkE raises rs, hf]; rfl
      simp [hrs, Script.isOkE]
    | ok u =>
      have hrs : (rs.all fun c => !raises c) = true := by
        rw [← Script.firstFailing_isOkE raises rs, hf]; rfl
      simp [hrs, Script.runStmts_isOkE raises branch body hb]
  | .ifS rs thn els, h => by
    have hb : Script.stmtsHaveTry thn = false ∧
        Script.stmtsHaveTry els = false := by
      constructor <;> simp_all [Script.stmtHasTry]
    simp only [Script.runStmt, Script.executedRefs, List.all_append]
    cases hf : Script.firstFailing raises rs with
    | error e =>
      have hrs : (rs.all fun c => !raises c) = false := by
        rw [← Script.firstFailing_isOkE raises rs, hf]; rfl
      simp [hrs, Script.isOkE]
    | ok u =>
      have hrs : (rs.all fun c => !raises c) = true := by
        rw [← Script.firstFailing_isOkE raises rs, hf]; rfl
      by_cases hbr : branch rs
      · simp [hrs, hbr, Script.runStmts_isOkE raises branch thn hb.1]
      · simp [hrs, hbr, Script.runStmts_isOkE raises branch els hb.2]
  | .withS rs body, h => by
    have hb : Script.stmtsHaveTry body = false := by
      simpa [Script.stmtHasTry] using h
    simp only [Script.runStmt, Script.executedRefs, List.all_append]
    cases hf : Script.firstFailing raises rs with
    | error e =>
      have hrs : (rs.all fun c => !raises c) = false := by
        rw [← Script.firstFailing_isOkE raises rs, hf]; rfl
      simp [hrs, Script.isOkE]
    | ok u =>
      have hrs : (rs.all fun c => !raises c) = true := by
        rw [← Script.firstFailing_isOkE raises rs, hf]; rfl
      simp [hrs, Script.runStmts_isOkE raises branch body hb]
  | .tryS body handlers, h => by
    simp [Script.stmtHasTry] at h

theorem Script.runStmts_isOkE (raises : String → Bool)
    (branch : List String → Bool) :
    ∀ l : List Script.Stmt, Script.stmtsHaveTry l = false →
      Script.isOkE (Script.runStmts raises branch l) =
        ((Script.executedRefsList branch l).all fun c => !raises c)
  | [], _h => rfl
  | s :: rest, h => by
    have hs : Script.stmtHasTry s = false ∧
        Script.stmtsHaveTry rest = false := by
      constructor <;> simp_all [Script.stmtsHaveTry]
    simp only [Script.runStmts, Script.executedRefsList, List.all_append]
    cases hrun : Script.runStmt raises branch s with
    | error e =>
      have hx : ((Script.executedRefs branch s).all fun c => !raises c) = false := by
        rw [← Script.runStmt_isOkE raises branch s hs.1, hrun]; rfl
      simp [hx, Script.isOkE]
    | ok u =>
      have hx : ((Script.executedRefs branch s).all fun c => !raises c) = true := by
        rw [← Script.runStmt_isOkE raises branch s hs.1, hrun]; rfl
      simp [hx, Script.runStmts_isOkE raises branch rest hs.2]

end

lemma Script.traceOfRefs_of_no_cli (argv : List String) :
    ∀ rs : List String, (rs.all fun c => !Script.readsCLI c) = true →
      Script.traceOfRefs argv rs = rs := by
  intro rs
  induction rs with
  | nil => intro _; rfl
  | cons c rest ih =>
    intro h
    simp only [List.all_cons, Bool.and_eq_true, Bool.not_eq_true'] at h
    simp only [Script.traceOfRefs, Script.refTrace, h.1]
    simp [ih (by simpa using h.2)]

namespace PPOScript

open Script.Stmt

/-- Module-level statement of src/LQR/1dim_PPO.py line 8:
device = torch.device("cuda:0" if torch.cuda.is_available() else "cpu"). -/
def device_stmt : Script.Stmt :=
  simple ["torch.device", "torch.cuda.is_available"]

/-- Body of simulate (src/LQR/1dim_PPO.py lines 12-27). -/
def simulate_body : List Script.Stmt :=
  [simple [], simple [], simple [], simple [],
   forS ["range"]
     [simple ["u_data.append", "u.item"],
      simple ["x_data.append", "x.item"],
      simple ["policy", "torch.as_tensor", "float", "detach", "numpy"],
      simple ["np.matmul"]],
   simple []]

/-- Body of compare_paths (src/LQR/1dim_PPO.py lines 29-43). -/
def compare_paths_body : List Script.Stmt :=
  [simple ["plt.subplots"],
   simple [],
   simple ["np.arange"],
   simple ["ax.plot"],
   simple ["ax.plot"],
   simple ["ax.set_xlabel"],
   simple ["ax.set_ylabel"],
   simple ["plt.legend"],
   simple ["plt.grid"],
   simple ["plt.show"],
   simple []]

/-- Body of compare_V (src/LQR/1dim_PPO.py lines 45-63). -/
def compare_V_body : List Script.Stmt :=
  [simple ["plt.subplots"],
   simple [],
   simple [],
   simple ["torch.linspace", "detach", "reshape"],
   simple ["critic", "squeeze", "detach", "numpy"],
   simple ["ax.plot", "numpy"],
   simple ["ax.plot", "control.trueloss", "numpy", "reshape"],
   simple ["ax.set_xlabel"],
   simple ["ax.set_ylabel"],
   simple ["plt.legend"],
   simple ["plt.grid"],
   simple ["plt.show"],
   simple []]

/-- Body of Memory.__init__ (src/LQR/1dim_PPO.py lines 66-71): five list
initializations. -/
def Memory_init_body : List Script.Stmt :=
  [simple [], simple [], simple [], simple [], simple []]

/-- Body of Memory.clear_memory (src/LQR/1dim_PPO.py lines 73-78): five del
statements. -/
def Memory_clear_body : List Script.Stmt :=
  [simple [], simple [], simple [], simple [], simple []]

/-- Body of Quadratic.__init__ (src/LQR/1dim_PPO.py lines 82-83). -/
def Quadratic_init_body : List Script.Stmt := [simple ["super"]]

/-- Body of Quadratic.forward (src/LQR/1dim_PPO.py lines 85-86). -/
def Quadratic_forward_body : List Script.Stmt := [simple []]

/-- Body of ActorCritic.__init__ (src/LQR/1dim_PPO.py lines 89-116); the
raise-free double initialization runs under torch.no_grad(), whose exit
suppresses nothing. -/
def ActorCritic_init_body : List Script.Stmt :=
  [simple ["super"],
   simple ["nn.Sequential", "nn.Linear", "nn.ReLU"],
   simple ["nn.Sequential", "nn.Linear", "Quadratic"],
   simple ["torch.full", "to"],
   ifS []
     [withS ["torch.no_grad"]
       [simple ["torch.randn", "np.sqrt"],
        simple ["nn.Parameter", "torch.cat"],
        simple ["torch.randn", "np.sqrt"],
        simple ["nn.Parameter", "torch.cat"],
        simple ["torch.randn", "np.sqrt"],
        simple ["nn.Parameter", "torch.cat"],
        simple ["torch.randn", "np.sqrt"],
        simple ["nn.Parameter", "torch.cat"]]]
     []]

/-- Body of ActorCritic.forward (src/LQR/1dim_PPO.py lines 119-120): it
raises NotImplementedError unconditionally, modelled as a reference that
raises. -/
def ActorCritic_forward_body : List Script.Stmt :=
  [simple ["raise NotImplementedError"]]

/-- Body of ActorCritic.act (src/LQR/1dim_PPO.py lines 122-134). -/
def ActorCritic_act_body : List Script.Stmt :=
  [simple ["self.actor"],
   simple ["torch.diag", "to"],
   simple ["MultivariateNormal"],
   simple ["dist.sample"],
   simple ["dist.log_prob"],
   simple ["memory.states.append"],
   simple ["memory.actions.append"],
   simple ["memory.logprobs.append"],
   simple ["action.detach"]]

/-- Body of ActorCritic.evaluate (src/LQR/1dim_PPO.py lines 136-145). -/
def ActorCritic_evaluate_body : List Script.Stmt :=
  [simple ["self.actor"],
   simple ["torch.diag_embed", "to"],
   simple ["MultivariateNormal"],
   simple ["torch.tensor", "dist.log_prob"],
   simple ["self.critic"],
   simple ["torch.squeeze"]]

/-- Body of PPO.__init__ (src/LQR/1dim_PPO.py lines 148-163). -/
def PPO_init_body : List Script.Stmt :=
  [simple [], simple [], simple [], simple [], simple [],
   simple ["ActorCritic", "to"],
   simple ["torch.optim.Adam", "parameters"],
   simple ["torch.optim.Adam", "parameters"],
   simple ["ActorCritic", "to"],
   simple ["load_state_dict", "state_dict"],
   simple ["nn.MSELoss"]]

/-- Body of PPO.select_action (src/LQR/1dim_PPO.py lines 165-167). -/
def PPO_select_action_body : List Script.Stmt :=
  [simple ["torch.FloatTensor", "reshape", "to"],
   simple ["self.policy_old.act", "cpu", "numpy", "flatten"]]

/-- Body of PPO.update_actor (src/LQR/1dim_PPO.py lines 169-208). -/
def PPO_update_actor_body : List Script.Stmt :=
  [simple [], simple [],
   forS ["zip", "reversed"]
     [ifS [] [simple []] [],
      simple [],
      simple ["rewards.insert"]],
   simple ["torch.tensor", "to"],
   simple ["rewards.mean", "rewards.std"],
   simple ["torch.stack", "to", "detach"],
   simple ["torch.stack", "to", "detach"],
   simple ["torch.stack", "to", "detach"],
   forS ["range"]
     [simple ["self.policy.evaluate"],
      simple ["torch.exp"],
      simple ["detach"],
      simple [],
      simple ["torch.ones_like", "torch.sign"],
      simple ["torch.min"],
      simple ["self.actor_optimizer.zero_grad"],
      simple ["mean", "backward"],
      simple ["self.actor_optimizer.step"]],
   simple ["load_state_dict", "state_dict"]]

/-- Body of PPO.update_critic (src/LQR/1dim_PPO.py lines 210-233). -/
def PPO_update_critic_body : List Script.Stmt :=
  [simple ["torch.stack", "to", "detach"],
   simple [], simple [],
   forS ["zip", "reversed"]
     [ifS [] [simple []] [],
      simple [],
      simple ["rewards.insert"]],
   simple ["torch.tensor", "to"],
   simple ["rewards.mean", "rewards.std"],
   forS ["range"]
     [simple ["torch.squeeze", "self.policy.critic"],
      simple ["self.MseLoss"],
      simple ["self.critic_optimizer.zero_grad"],
      simple ["mean", "backward"],
      simple ["self.critic_optimizer.step"]]]

/-- Statements of the __main__ block before the training loop
(src/LQR/1dim_PPO.py lines 239-283): the four 1x1 matrices, sixteen
in-file hyperparameter constants, the seeding conditional, the optimal-gain
computation via control.dlqr at line 273, and the agent construction. -/
def main_pre : List Script.Stmt :=
  [simple ["np.array", "reshape"],
   simple ["np.array", "reshape"],
   simple ["np.array", "reshape"],
   simple ["np.array", "reshape"]] ++
  List.replicate 16 (Script.Stmt.simple []) ++
  [ifS []
     [simple ["print", "format"],
      simple ["torch.manual_seed"],
      simple ["np.random.seed"]]
     [],
   simple ["control.dlqr"],
   simple ["Memory"],
   simple ["PPO"],
   simple ["print", "format"],
   simple [], simple [], simple []]

/-- The training loop of the __main__ block (src/LQR/1dim_PPO.py lines
285-333) as one for statement over episodes, with the timestep loop, the
done update on state escape, the periodic update conditional and the
logging conditional inside it. -/
def train_loop : Script.Stmt :=
  forS ["range"]
    [simple ["np.random.uniform"],
     simple [],
     forS ["range"]
       [simple [],
        simple ["ppo.select_action"],
        simple ["np.matmul", "np.array", "reshape"],
        simple ["np.matmul", "np.array", "reshape"],
        ifS ["np.abs"] [simple []] [],
        simple ["memory.rewards.append", "reward.item"],
        simple ["memory.is_terminals.append"],
        ifS []
          [simple ["ppo.update_actor"],
           simple ["ppo.update_critic"],
           simple ["memory.clear_memory"],
           simple []]
          [],
        simple ["reward.item"],
        ifS [] [simple []] []],
     simple [],
     ifS []
       [simple ["plt.close"],
        simple [],
        simple [],
        simple ["print", "format"],
        simple [],
        simple []]
       []]

/-- Statements of the __main__ block after the training loop
(src/LQR/1dim_PPO.py lines 335-345): the random initial state, the optimal
trajectory via control.simulate_discrete, the learned trajectory via
simulate, and the three comparison plots. -/
def main_post : List Script.Stmt :=
  [simple ["np.random.randn"],
   simple ["np.zeros"],
   simple [],
   simple ["control.simulate_discrete", "reshape"],
   simple ["simulate"],
   simple ["compare_paths", "np.array", "np.squeeze"],
   simple ["compare_paths", "np.array", "np.squeeze"],
   simple ["compare_V"]]

/-- Every statement of src/LQR/1dim_PPO.py: the module-level device
assignment, the bodies of all functions and methods, and the __main__
block in source order. -/
def program : List Script.Stmt :=
  [device_stmt] ++ simulate_body ++ compare_paths_body ++ compare_V_body ++
    Memory_init_body ++ Memory_clear_body ++ Quadratic_init_body ++
    Quadratic_forward_body ++ ActorCritic_init_body ++
    ActorCritic_forward_body ++ ActorCritic_act_body ++
    ActorCritic_evaluate_body ++ PPO_init_body ++ PPO_select_action_body ++
    PPO_update_actor_body ++ PPO_update_critic_body ++
    main_pre ++ [train_loop] ++ main_post

end PPOScript

namespace SACScript

open Script.Stmt

/-- Module-level statement of src/LQR/1dim_SAC.py line 11:
device = torch.device("cuda:0" if torch.cuda.is_available() else "cpu"). -/
def device_stmt : Script.Stmt :=
  simple ["torch.device", "torch.cuda.is_available"]

/-- Body of simulate (src/LQR/1dim_SAC.py lines 13-28); unlike the PPO
variant it computes an initial action before the loop. -/
def simulate_body : List Script.Stmt :=
  [simple [], simple [], simple [],
   simple ["policy", "torch.as_tensor", "float", "detach", "numpy"],
   forS ["range"]
     [simple ["u_data.append", "u.item"],
      simple ["x_data.append", "x.item"],
      simple ["policy", "torch.as_tensor", "float", "detach", "numpy"],
      simple ["np.matmul"]],
   simple []]

/-- Body of compare_paths (src/LQR/1dim_SAC.py lines 30-44). -/
def compare_paths_body : List Script.Stmt :=
  [simple ["plt.subplots"],
   simple [],
   simple ["np.arange"],
   simple ["ax.plot"],
   simple ["ax.plot"],
   simple ["ax.set_xlabel"],
   simple ["ax.set_ylabel"],
   simple ["plt.legend"],
   simple ["plt.grid"],
   simple ["plt.show"],
   simple []]

/-- Body of compare_V (src/LQR/1dim_SAC.py lines 46-64). -/
def compare_V_body : List Script.Stmt :=
  [simple ["plt.subplots"],
   simple [],
   simple [],
   simple ["torch.linspace", "detach", "reshape"],
   simple ["critic", "squeeze", "detach", "numpy"],
   simple ["ax.plot", "numpy"],
   simple ["ax.plot", "control.trueloss", "numpy", "reshape"],
   simple ["ax.set_xlabel"],
   simple ["ax.set_ylabel"],
   simple ["plt.legend"],
   simple ["plt.grid"],
   simple ["plt.show"],
   simple []]

/-- Body of compare_P (src/LQR/1dim_SAC.py lines 66-85). -/
def compare_P_body : List Script.Stmt :=
  [simple ["plt.subplots"],
   simple [],
   simple [],
   simple ["torch.linspace", "detach", "reshape"],
   simple ["actor", "squeeze", "detach", "numpy"],
   simple ["numpy"],
   simple ["ax.plot", "numpy"],
   simple ["ax.plot", "numpy"],
   simple ["ax.set_xlabel"],
   simple ["ax.set_ylabel"],
   simple ["plt.legend"],
   simple ["plt.grid"],
   simple ["plt.show"],
   simple []]

/-- Body of Memory.__init__ (src/LQR/1dim_SAC.py lines 89-94). -/
def Memory_init_body : List Script.Stmt :=
  [simple [], simple [], simple [], simple [], simple []]

/-- Body of Memory.clear_memory (src/LQR/1dim_SAC.py lines 96-101). -/
def Memory_clear_body : List Script.Stmt :=
  [simple [], simple [], simple [], simple [], simple []]

/-- Body of Quadratic.__init__ (src/LQR/1dim_SAC.py lines 105-106). -/
def Quadratic_init_body : List Script.Stmt := [simple ["super"]]

/-- Body of Quadratic.forward (src/LQR/1dim_SAC.py lines 108-109). -/
def Quadratic_forward_body : List Script.Stmt := [simple []]

/-- Body of Model.__init__ (src/LQR/1dim_SAC.py lines 112-123). -/
def Model_init_body : List Script.Stmt :=
  [simple ["super"],
   simple ["nn.Sequential", "nn.Linear", "Quadratic"],
   simple [], simple [], simple []]

/-- Body of Model.forward (src/LQR/1dim_SAC.py lines 125-126): it raises
NotImplementedError unconditionally, modelled as a reference that raises. -/
def Model_forward_body : List Script.Stmt :=
  [simple ["raise NotImplementedError"]]

/-- Body of Model.act (src/LQR/1dim_SAC.py lines 128-135). -/
def Model_act_body : List Script.Stmt :=
  [simple ["torch.rand"],
   simple ["torch.exp", "self.agent", "torch.cat"],
   simple ["memory.states.append"],
   simple ["memory.actions.append"],
   simple ["action.detach"]]

/-- Body of Model.evaluate (src/LQR/1dim_SAC.py lines 137-139). -/
def Model_evaluate_body : List Script.Stmt :=
  [simple ["self.agent", "torch.cat", "squeeze"],
   simple ["torch.squeeze"]]

/-- Body of SAC.__init__ (src/LQR/1dim_SAC.py lines 142-155). -/
def SAC_init_body : List Script.Stmt :=
  [simple [], simple [], simple [], simple [],
   simple ["Model", "to"],
   simple ["torch.optim.Adam", "parameters"],
   simple ["Model", "to"],
   simple ["load_state_dict", "state_dict"],
   simple ["nn.MSELoss"]]

/-- Body of SAC.select_action (src/LQR/1dim_SAC.py lines 157-159). -/
def SAC_select_action_body : List Script.Stmt :=
  [simple ["torch.FloatTensor", "reshape", "to"],
   simple ["self.policy_old.act", "cpu", "numpy", "flatten"]]

/-- Body of SAC.update (src/LQR/1dim_SAC.py lines 161-195); the
normalization of the costs at line 173 is commented out and therefore not a
statement. -/
def SAC_update_body : List Script.Stmt :=
  [simple [], simple [],
   forS ["zip", "reversed"]
     [ifS [] [simple []] [],
      simple [],
      simple ["costs.insert"]],
   simple ["torch.tensor", "to"],
   simple ["torch.stack", "to", "detach"],
   simple ["torch.stack", "to", "detach"],
   forS ["range"]
     [simple ["self.policy.evaluate"],
      simple ["torch.log"],
      simple ["self.MseLoss"],
      simple [],
      simple ["self.optimizer.zero_grad"],
      simple ["mean", "backward"],
      simple ["self.optimizer.step"]],
   simple ["load_state_dict", "state_dict"]]

/-- Module-level statements before the training loop
(src/LQR/1dim_SAC.py lines 199-233): the four 1x1 matrices, thirteen
in-file hyperparameter constants, the seeding conditional, and the agent
construction. -/
def top_pre : List Script.Stmt :=
  [simple ["np.array", "reshape"],
   simple ["np.array", "reshape"],
   simple ["np.array", "reshape"],
   simple ["np.array", "reshape"]] ++
  List.replicate 13 (Script.Stmt.simple []) ++
  [ifS []
     [simple ["print", "format"],
      simple ["torch.manual_seed"],
      simple ["np.random.seed"]]
     [],
   simple ["Memory"],
   simple ["SAC"],
   simple ["print"],
   simple []]

/-- The training loop of the SAC script (src/LQR/1dim_SAC.py lines 236-264)
as one for statement over episodes.  The flag done is initialized to False
in the first body statement; no statement of the episode loop assigns to
it. -/
def train_loop : Script.Stmt :=
  forS ["range"]
    [simple ["np.random.randn"],
     simple [],
     forS ["range"]
       [simple ["sac.select_action"],
        simple ["np.array", "reshape"],
        simple ["np.array", "reshape"],
        simple ["memory.costs.append", "cost.item"],
        simple ["memory.is_terminals.append"],
        ifS [] [simple []] []],
     simple ["sac.update"],
     simple ["memory.clear_memory"],
     simple ["cost.item"],
     ifS []
       [simple [],
        simple ["print", "format"],
        simple []]
       []]

/-- Module-level statements after the training loop
(src/LQR/1dim_SAC.py lines 267-281): the random initial state and the
optimal-gain computation via control.dlqr at line 273.  The trajectory and
plot comparisons at lines 275-281 are commented out (marked TODO) and are
therefore not statements. -/
def top_post : List Script.Stmt :=
  [simple ["np.random.uniform"],
   simple ["np.zeros"],
   simple [],
   simple ["control.dlqr"]]

/-- Every statement of src/LQR/1dim_SAC.py: the module-level device
assignment, the bodies of all functions and methods, and the module code in
source order. -/
def program : List Script.Stmt :=
  [device_stmt] ++ simulate_body ++ compare_paths_body ++ compare_V_body ++
    compare_P_body ++ Memory_init_body ++ Memory_clear_body ++
    Quadratic_init_body ++ Quadratic_forward_body ++ Model_init_body ++
    Model_forward_body ++ Model_act_body ++ Model_evaluate_body ++
    SAC_init_body ++ SAC_select_action_body ++ SAC_update_body ++
    top_pre ++ [train_loop] ++ top_post

end SACScript

set_option maxRecDepth 100000

/-- C2 counterexample: the SAC script computes the optimal gain via
control.dlqr (line 273) but produces no comparison at all — its whole
statement list references neither compare_paths, compare_V, compare_P,
control.simulate_discrete nor simulate, because the comparison block at
lines 275-281 is commented out.  This falsifies the claim that each of the
two scripts produces a comparison against the optimal LQR controller. -/
theorem C2_sac_no_comparison_counterexample :
    ((Script.stmtsRefs SACScript.program).contains "control.dlqr" = true) ∧
    ((Script.stmtsRefs SACScript.program).contains "compare_paths" = false) ∧
    ((Script.stmtsRefs SACScript.program).contains "compare_V" = false) ∧
    ((Script.stmtsRefs SACScript.program).contains "compare_P" = false) ∧
    ((Script.stmtsRefs SACScript.program).contains "control.simulate_discrete"
      = false) ∧
    ((Script.stmtsRefs SACScript.program).contains "simulate" = false) := by
  refine ⟨by decide, by decide, by decide, by decide, by decide, by decide⟩

/-- C2 amended: the PPO script computes the optimal gain K via control.dlqr
(before its training loop) and, after the loop, simulates both controllers
and produces the trajectory and value-function comparisons; the SAC script
computes K via control.dlqr after its loop but references no comparison or
simulation routine anywhere, its comparison block being commented out. -/
theorem C2_lqr_comparison_amended :
    ((Script.stmtsRefs PPOScript.main_pre).contains "control.dlqr" = true) ∧
    ((Script.stmtsRefs PPOScript.main_post).contains "control.simulate_discrete"
      = true) ∧
    ((Script.stmtsRefs PPOScript.main_post).contains "simulate" = true) ∧
    ((Script.stmtsRefs PPOScript.main_post).contains "compare_paths" = true) ∧
    ((Script.stmtsRefs PPOScript.main_post).contains "compare_V" = true) ∧
    ((Script.stmtsRefs SACScript.top_post).contains "control.dlqr" = true) ∧
    ((Script.stmtsRefs SACScript.program).filter
        (fun c => c == "compare_paths" || c == "compare_V" ||
          c == "compare_P" || c == "control.simulate_discrete" ||
          c == "simulate") = []) := by
  refine ⟨by decide, by decide, by decide, by decide, by decide, by decide,
    by decide⟩

/-- C4: neither script contains an error-handling construct — no statement
of either program, at any depth, is a try/except — and consequently, in the
sequential runner over the transcribed statements, a run succeeds exactly
when no executed library reference raises: any raising reference aborts the
whole run with its error, uncaught, for every oracle of raising names and
every choice of branches. -/
theorem C4_no_error_handling :
    (Script.stmtsHaveTry PPOScript.program = false ∧
      Script.stmtsHaveTry SACScript.program = false) ∧
    ∀ (raises : String → Bool) (branch : List String → Bool),
      Script.isOkE (Script.runStmts raises branch PPOScript.program) =
        ((Script.executedRefsList branch PPOScript.program).all
          fun c => !raises c) ∧
      Script.isOkE (Script.runStmts raises branch SACScript.program) =
        ((Script.executedRefsList branch SACScript.program).all
          fun c => !raises c) := by
  refine ⟨⟨by decide, by decide⟩, ?_⟩
  intro raises branch
  exact ⟨Script.runStmts_isOkE raises branch _ (by decide),
    Script.runStmts_isOkE raises branch _ (by decide)⟩

/-- C5: no statement of either program references a name that writes a file
or other persistent state, so in particular every persistent write is
(vacuously) a checkpoint write through the tensor library's serialization —
the only torch.save in the sources is commented out, and the scripts
persist nothing at all. -/
theorem C5_no_persistent_state :
    ((Script.stmtsRefs PPOScript.program ++
        Script.stmtsRefs SACScript.program).all
      fun c => !Script.writesPersistent c || Script.isCheckpointSave c)
      = true ∧
    ((Script.stmtsRefs PPOScript.program ++
        Script.stmtsRefs SACScript.program).all
      fun c => !Script.writesPersistent c) = true :=
  ⟨by decide, by decide⟩

/-- C6: no statement of either program references a name that reads the
command line or other invocation input, and therefore the observable trace
of each program is the same for any two argument vectors: every
hyperparameter is an in-file constant. -/
theorem C6_cli_independence :
    (((Script.stmtsRefs PPOScript.program).all
        fun c => !Script.readsCLI c) = true) ∧
    (((Script.stmtsRefs SACScript.program).all
        fun c => !Script.readsCLI c) = true) ∧
    ∀ argv1 argv2 : List String,
      Script.stmtsTrace argv1 PPOScript.program =
        Script.stmtsTrace argv2 PPOScript.program ∧
      Script.stmtsTrace argv1 SACScript.program =
        Script.stmtsTrace argv2 SACScript.program := by
  refine ⟨by decide, by decide, ?_⟩
  intro a1 a2
  constructor
  · rw [Script.stmtsTrace, Script.stmtsTrace,
      Script.traceOfRefs_of_no_cli a1 _ (by decide),
      Script.traceOfRefs_of_no_cli a2 _ (by decide)]
  · rw [Script.stmtsTrace, Script.stmtsTrace,
      Script.traceOfRefs_of_no_cli a1 _ (by decide),
      Script.traceOfRefs_of_no_cli a2 _ (by decide)]

/-- C7: no statement of either program references a name that creates a
thread or process, so the training loops run single-threaded under the
sequential statement semantics of the runner, in which each statement — in
particular each training step of the transcribed loops — completes before
the next begins. -/
theorem C7_single_threaded :
    (((Script.stmtsRefs PPOScript.program).all
        fun c => !Script.spawnsConcurrency c) = true) ∧
    (((Script.stmtsRefs SACScript.program).all
        fun c => !Script.spawnsConcurrency c) = true) :=
  ⟨by decide, by decide⟩
